import Mathlib

/-!
Verification of the IOAVServiceBridge shim
(`src/MonitorKeyboardFix/Sources/IOAVServiceBridge/IOAVServiceBridge.c`).

The shim re-exposes four private IOKit functions under `mkf_*` names with
opaque-pointer signatures.  We shallowly embed the C code:

* A C pointer is modelled by its address value (`Nat`); the null pointer is
  address 0.  `CFAllocatorRef`, `void*` and the private `IOAVServiceRef`
  (`CFTypeRef`) are distinct pointer types, so the C casts between them are
  explicit, value-preserving functions.
* `io_service_t` is a kernel port name (a 32-bit integer in C); `IOReturn`
  is a status code.  The shim performs no arithmetic on either, so they are
  modelled as `Nat`.
* The four private framework entry points are external: the shim only links
  against them.  They are modelled as an oracle, a structure of functions
  over an abstract `World` capturing whatever state and side effects the
  closed framework has.  Each shim function is then the literal translation
  of its C body: one framework call, with the casts applied.
* To state "forwards every argument unmodified", "exactly one underlying
  call" and "no retry" non-trivially, `traced` instruments an arbitrary
  oracle so that every call it receives is appended, with its exact
  argument values, to a log carried in the world.
-/

/-- A `CFAllocatorRef` argument, modelled by its pointer value. -/
structure CFAllocatorRef where
  addr : Nat
deriving DecidableEq, Repr

/-- A C `void*` value, modelled by its pointer value. -/
structure VoidPtr where
  addr : Nat
deriving DecidableEq, Repr

/-- The private `IOAVServiceRef` (`typedef CFTypeRef IOAVServiceRef;`),
modelled by its pointer value. -/
structure IOAVServiceRef where
  addr : Nat
deriving DecidableEq, Repr

/-- The C null pointer as a `void*`. -/
def VoidPtr.null : VoidPtr := ⟨0⟩

/-- The C null pointer as an `IOAVServiceRef`. -/
def IOAVServiceRef.null : IOAVServiceRef := ⟨0⟩

/-- The C null pointer as a `CFAllocatorRef` (e.g. `kCFAllocatorDefault`
passed as NULL). -/
def CFAllocatorRef.null : CFAllocatorRef := ⟨0⟩

/-- The C cast `(void*)r` applied to an `IOAVServiceRef`, as in the bodies of
`mkf_IOAVServiceCreate` and `mkf_IOAVServiceCreateWithService`.  A pointer
cast in C preserves the pointer value. -/
def refToVoid (r : IOAVServiceRef) : VoidPtr := ⟨r.addr⟩

/-- The C cast `(IOAVServiceRef)service` applied to a `void*`, as in the
bodies of `mkf_IOAVServiceWriteI2C` and `mkf_IOAVServiceReadI2C`. -/
def voidToRef (p : VoidPtr) : IOAVServiceRef := ⟨p.addr⟩

/-- `io_service_t`: a Mach port name for a kernel service object. -/
abbrev io_service_t := Nat

/-- `IOReturn`: the status code returned by the I2C entry points. -/
abbrev IOReturn := Nat

/-- The four private framework entry points declared `extern` in
`IOAVServiceBridge.c`.  The framework is closed source, so its behaviour is
an oracle: each entry point is an arbitrary function of its C arguments and
of an abstract framework/hardware state `World`, returning its C result and
the successor state. -/
structure Framework (World : Type) where
  IOAVServiceCreate : CFAllocatorRef → World → IOAVServiceRef × World
  IOAVServiceCreateWithService :
    CFAllocatorRef → io_service_t → World → IOAVServiceRef × World
  IOAVServiceWriteI2C :
    IOAVServiceRef → Nat → Nat → VoidPtr → Nat → World → IOReturn × World
  IOAVServiceReadI2C :
    IOAVServiceRef → Nat → Nat → VoidPtr → Nat → World → IOReturn × World

/-- C source: `return (void*)IOAVServiceCreate(allocator);` — one
unconditional framework call, result cast to `void*`. -/
def mkf_IOAVServiceCreate {World : Type} (fw : Framework World)
    (allocator : CFAllocatorRef) (w : World) : VoidPtr × World :=
  (refToVoid (fw.IOAVServiceCreate allocator w).1,
   (fw.IOAVServiceCreate allocator w).2)

/-- C source: `return (void*)IOAVServiceCreateWithService(allocator, service);`. -/
def mkf_IOAVServiceCreateWithService {World : Type} (fw : Framework World)
    (allocator : CFAllocatorRef) (service : io_service_t) (w : World) :
    VoidPtr × World :=
  (refToVoid (fw.IOAVServiceCreateWithService allocator service w).1,
   (fw.IOAVServiceCreateWithService allocator service w).2)

/-- C source: `return IOAVServiceWriteI2C((IOAVServiceRef)service,
chipAddress, dataAddress, data, dataLength);`. -/
def mkf_IOAVServiceWriteI2C {World : Type} (fw : Framework World)
    (service : VoidPtr) (chipAddress dataAddress : Nat) (data : VoidPtr)
    (dataLength : Nat) (w : World) : IOReturn × World :=
  fw.IOAVServiceWriteI2C (voidToRef service) chipAddress dataAddress data
    dataLength w

/-- C source: `return IOAVServiceReadI2C((IOAVServiceRef)service,
chipAddress, dataAddress, data, dataLength);`. -/
def mkf_IOAVServiceReadI2C {World : Type} (fw : Framework World)
    (service : VoidPtr) (chipAddress dataAddress : Nat) (data : VoidPtr)
    (dataLength : Nat) (w : World) : IOReturn × World :=
  fw.IOAVServiceReadI2C (voidToRef service) chipAddress dataAddress data
    dataLength w

/-- One observed call into the private framework, with the exact argument
values the framework entry point received. -/
inductive FwCall where
  | create (allocator : CFAllocatorRef)
  | createWithService (allocator : CFAllocatorRef) (service : io_service_t)
  | writeI2C (service : IOAVServiceRef) (chipAddress dataAddress : Nat)
      (data : VoidPtr) (dataLength : Nat)
  | readI2C (service : IOAVServiceRef) (chipAddress dataAddress : Nat)
      (data : VoidPtr) (dataLength : Nat)
deriving DecidableEq, Repr

/-- Instrumentation of an arbitrary framework oracle: behaves exactly like
`fw` but additionally appends every call it receives, with its exact
argument values, to a log carried alongside the world. -/
def traced (World : Type) (fw : Framework World) :
    Framework (World × List FwCall) where
  IOAVServiceCreate := fun a p =>
    ((fw.IOAVServiceCreate a p.1).1,
     ((fw.IOAVServiceCreate a p.1).2, p.2 ++ [FwCall.create a]))
  IOAVServiceCreateWithService := fun a s p =>
    ((fw.IOAVServiceCreateWithService a s p.1).1,
     ((fw.IOAVServiceCreateWithService a s p.1).2,
      p.2 ++ [FwCall.createWithService a s]))
  IOAVServiceWriteI2C := fun r c d b l p =>
    ((fw.IOAVServiceWriteI2C r c d b l p.1).1,
     ((fw.IOAVServiceWriteI2C r c d b l p.1).2,
      p.2 ++ [FwCall.writeI2C r c d b l]))
  IOAVServiceReadI2C := fun r c d b l p =>
    ((fw.IOAVServiceReadI2C r c d b l p.1).1,
     ((fw.IOAVServiceReadI2C r c d b l p.1).2,
      p.2 ++ [FwCall.readI2C r c d b l]))

/-- A concrete mock framework (used only to witness the framework-dependent
hypotheses of the theorems below): its `IOAVServiceReadI2C` always reports
status `0xE00002C2`, its constructors return fixed non-null handles. -/
def mockFramework : Framework Unit where
  IOAVServiceCreate := fun _ w => (⟨1⟩, w)
  IOAVServiceCreateWithService := fun _ _ w => (⟨2⟩, w)
  IOAVServiceWriteI2C := fun _ _ _ _ _ w => (0, w)
  IOAVServiceReadI2C := fun _ _ _ _ _ w => (0xE00002C2, w)

/-- A mock framework over a counting world, used to witness hypotheses with
a second, differently-typed world. -/
def mockFramework2 : Framework Nat where
  IOAVServiceCreate := fun _ n => (⟨1⟩, n + 1)
  IOAVServiceCreateWithService := fun _ _ n => (⟨2⟩, n + 1)
  IOAVServiceWriteI2C := fun _ _ _ _ _ n => (7, n + 1)
  IOAVServiceReadI2C := fun _ _ _ _ _ n => (0xE00002C2, n + 1)

/-- A `void*` is the null pointer exactly when its address is 0. -/
theorem voidPtr_eq_null_iff (p : VoidPtr) : p = VoidPtr.null ↔ p.addr = 0 := by
  cases p
  simp [VoidPtr.null]

/-- An `IOAVServiceRef` is the null pointer exactly when its address is 0. -/
theorem serviceRef_eq_null_iff (r : IOAVServiceRef) :
    r = IOAVServiceRef.null ↔ r.addr = 0 := by
  cases r
  simp [IOAVServiceRef.null]

/-- Claim C1: `mkf_IOAVServiceWriteI2C` forwards every argument unmodified
(no truncation, no byte-order change) to the private `IOAVServiceWriteI2C`
and returns the underlying status code and state unmodified: its result is
exactly the framework call's result at the caller's argument values, and an
instrumented framework records exactly one write call carrying exactly the
caller's chip address, data address, buffer and length, with the handle
address preserved by the cast. -/
theorem C1_writeI2C_forwards {World : Type} (fw : Framework World)
    (h : VoidPtr) (c d : Nat) (b : VoidPtr) (l : Nat) (w : World) :
    mkf_IOAVServiceWriteI2C fw h c d b l w
      = fw.IOAVServiceWriteI2C ⟨h.addr⟩ c d b l w ∧
    (mkf_IOAVServiceWriteI2C (traced World fw) h c d b l (w, [])).2.2
      = [FwCall.writeI2C ⟨h.addr⟩ c d b l] :=
  ⟨rfl, rfl⟩

/-- Claim C2: `mkf_IOAVServiceReadI2C` forwards every argument unmodified to
the private `IOAVServiceReadI2C` and returns the underlying status code
unmodified; in particular, if the underlying call returns status
`0xE00002C2` then the shim returns exactly `0xE00002C2`. -/
theorem C2_readI2C_forwards {World : Type} (fw : Framework World)
    (h : VoidPtr) (c d : Nat) (b : VoidPtr) (l : Nat) (w : World) :
    (mkf_IOAVServiceReadI2C fw h c d b l w
        = fw.IOAVServiceReadI2C ⟨h.addr⟩ c d b l w ∧
      (mkf_IOAVServiceReadI2C (traced World fw) h c d b l (w, [])).2.2
        = [FwCall.readI2C ⟨h.addr⟩ c d b l]) ∧
    ((fw.IOAVServiceReadI2C ⟨h.addr⟩ c d b l w).1 = 0xE00002C2 →
      (mkf_IOAVServiceReadI2C fw h c d b l w).1 = 0xE00002C2) :=
  ⟨⟨rfl, rfl⟩, fun hs => hs⟩

/-- Witness for C2 at a concrete mocked framework whose read entry point
reports `0xE00002C2`: the shim returns exactly `0xE00002C2`. -/
theorem C2_witness :
    (mkf_IOAVServiceReadI2C mockFramework ⟨5⟩ 1 2 ⟨7⟩ 3 ()).1 = 0xE00002C2 :=
  (C2_readI2C_forwards mockFramework ⟨5⟩ 1 2 ⟨7⟩ 3 ()).2 rfl

/-- Claim C3: for every allocator (the null allocator included),
`mkf_IOAVServiceCreate` returns exactly what the private `IOAVServiceCreate`
returns — the same pointer value, hence the same null/non-null outcome —
with no retry (exactly one recorded framework call) and no validation of the
allocator argument. -/
theorem C3_create_forwards {World : Type} (fw : Framework World)
    (a : CFAllocatorRef) (w : World) :
    mkf_IOAVServiceCreate fw a w
      = (refToVoid (fw.IOAVServiceCreate a w).1,
         (fw.IOAVServiceCreate a w).2) ∧
    (mkf_IOAVServiceCreate fw a w).1.addr
      = (fw.IOAVServiceCreate a w).1.addr ∧
    ((mkf_IOAVServiceCreate fw a w).1 = VoidPtr.null ↔
      (fw.IOAVServiceCreate a w).1 = IOAVServiceRef.null) ∧
    (mkf_IOAVServiceCreate (traced World fw) a (w, [])).2.2
      = [FwCall.create a] ∧
    (mkf_IOAVServiceCreate fw CFAllocatorRef.null w).1.addr
      = (fw.IOAVServiceCreate CFAllocatorRef.null w).1.addr := by
  refine ⟨rfl, rfl, ?_, rfl, rfl⟩
  simp [mkf_IOAVServiceCreate, refToVoid, voidPtr_eq_null_iff,
    serviceRef_eq_null_iff]

/-- Witness for C3 at a concrete framework whose constructor returns the
non-null handle `1`: the shim's result is non-null. -/
theorem C3_witness :
    (mkf_IOAVServiceCreate mockFramework CFAllocatorRef.null ()).1
      ≠ VoidPtr.null := by
  intro hnull
  exact absurd
    ((C3_create_forwards mockFramework CFAllocatorRef.null ()).2.2.1.mp hnull)
    (by decide)

/-- Claim C4: `mkf_IOAVServiceCreateWithService` forwards both the allocator
and the service object unmodified to the private
`IOAVServiceCreateWithService` and returns the underlying result unchanged. -/
theorem C4_createWithService_forwards {World : Type} (fw : Framework World)
    (a : CFAllocatorRef) (s : io_service_t) (w : World) :
    mkf_IOAVServiceCreateWithService fw a s w
      = (refToVoid (fw.IOAVServiceCreateWithService a s w).1,
         (fw.IOAVServiceCreateWithService a s w).2) ∧
    (mkf_IOAVServiceCreateWithService (traced World fw) a s (w, [])).2.2
      = [FwCall.createWithService a s] ∧
    (mkf_IOAVServiceCreateWithService fw a s w).1.addr
      = (fw.IOAVServiceCreateWithService a s w).1.addr :=
  ⟨rfl, rfl, rfl⟩

/-- Claim C5: every failure reported by the wrapped framework is surfaced
verbatim: a null handle from either constructor maps to a null result of the
shim (and only then), any status code from either I2C operation is returned
exactly as produced, and each invocation performs exactly one underlying
call — no translation, retry or suppression, and no error values of the
shim's own. -/
theorem C5_errors_verbatim {World : Type} (fw : Framework World)
    (a : CFAllocatorRef) (s : io_service_t) (h : VoidPtr) (c d : Nat)
    (b : VoidPtr) (l : Nat) (w : World) :
    ((mkf_IOAVServiceCreate fw a w).1 = VoidPtr.null ↔
      (fw.IOAVServiceCreate a w).1 = IOAVServiceRef.null) ∧
    ((mkf_IOAVServiceCreateWithService fw a s w).1 = VoidPtr.null ↔
      (fw.IOAVServiceCreateWithService a s w).1 = IOAVServiceRef.null) ∧
    (mkf_IOAVServiceWriteI2C fw h c d b l w).1
      = (fw.IOAVServiceWriteI2C ⟨h.addr⟩ c d b l w).1 ∧
    (mkf_IOAVServiceReadI2C fw h c d b l w).1
      = (fw.IOAVServiceReadI2C ⟨h.addr⟩ c d b l w).1 ∧
    (mkf_IOAVServiceWriteI2C (traced World fw) h c d b l (w, [])).2.2.length
      = 1 ∧
    (mkf_IOAVServiceReadI2C (traced World fw) h c d b l (w, [])).2.2.length
      = 1 := by
  refine ⟨?_, ?_, rfl, rfl, rfl, rfl⟩ <;>
    simp [mkf_IOAVServiceCreate, mkf_IOAVServiceCreateWithService, refToVoid,
      voidPtr_eq_null_iff, serviceRef_eq_null_iff]

/-- Witness for C5 at a concrete framework whose read entry point reports
the failure status `0xE00002C2`: the shim surfaces exactly that status. -/
theorem C5_witness :
    (mkf_IOAVServiceReadI2C mockFramework2 ⟨5⟩ 1 2 ⟨7⟩ 3 0).1 = 0xE00002C2 :=
  ((C5_errors_verbatim mockFramework2 ⟨3⟩ 4 ⟨5⟩ 1 2 ⟨7⟩ 3 0).2.2.2.1).trans rfl

/-- Claim C6: the boundary inputs `dataLength = 0` and `data = null` are
forwarded as-is by both I2C wrappers — not special-cased, checked or
rejected: the shim's result at these values is exactly the framework call's
result, and the instrumented framework records exactly one call carrying the
null buffer and zero length unchanged. -/
theorem C6_boundary_forwarded {World : Type} (fw : Framework World)
    (h : VoidPtr) (c d : Nat) (w : World) :
    mkf_IOAVServiceWriteI2C fw h c d VoidPtr.null 0 w
      = fw.IOAVServiceWriteI2C ⟨h.addr⟩ c d VoidPtr.null 0 w ∧
    mkf_IOAVServiceReadI2C fw h c d VoidPtr.null 0 w
      = fw.IOAVServiceReadI2C ⟨h.addr⟩ c d VoidPtr.null 0 w ∧
    (mkf_IOAVServiceWriteI2C (traced World fw) h c d VoidPtr.null 0
        (w, [])).2.2
      = [FwCall.writeI2C ⟨h.addr⟩ c d VoidPtr.null 0] ∧
    (mkf_IOAVServiceReadI2C (traced World fw) h c d VoidPtr.null 0
        (w, [])).2.2
      = [FwCall.readI2C ⟨h.addr⟩ c d VoidPtr.null 0] :=
  ⟨rfl, rfl, rfl, rfl⟩

/-- Claim C7: the shim keeps no state of its own: each wrapper's result
depends only on its arguments and on the framework call's result for that
invocation (two frameworks over different world types that agree on one
call's result yield the same shim result), and calling
`mkf_IOAVServiceCreate` twice with the same allocator performs two
independent framework calls, yielding the framework's two successive results
with no caching. -/
theorem C7_stateless {World World' : Type} (fw : Framework World)
    (fw' : Framework World') (a : CFAllocatorRef) (h : VoidPtr)
    (c d : Nat) (b : VoidPtr) (l : Nat) (w : World) (w' : World') :
    ((fw.IOAVServiceCreate a w).1 = (fw'.IOAVServiceCreate a w').1 →
      (mkf_IOAVServiceCreate fw a w).1 = (mkf_IOAVServiceCreate fw' a w').1) ∧
    ((fw.IOAVServiceWriteI2C ⟨h.addr⟩ c d b l w).1
        = (fw'.IOAVServiceWriteI2C ⟨h.addr⟩ c d b l w').1 →
      (mkf_IOAVServiceWriteI2C fw h c d b l w).1
        = (mkf_IOAVServiceWriteI2C fw' h c d b l w').1) ∧
    ((fw.IOAVServiceReadI2C ⟨h.addr⟩ c d b l w).1
        = (fw'.IOAVServiceReadI2C ⟨h.addr⟩ c d b l w').1 →
      (mkf_IOAVServiceReadI2C fw h c d b l w).1
        = (mkf_IOAVServiceReadI2C fw' h c d b l w').1) ∧
    (mkf_IOAVServiceCreate fw a w).1
      = refToVoid (fw.IOAVServiceCreate a w).1 ∧
    (mkf_IOAVServiceCreate fw a (mkf_IOAVServiceCreate fw a w).2).1
      = refToVoid (fw.IOAVServiceCreate a (fw.IOAVServiceCreate a w).2).1 ∧
    (mkf_IOAVServiceCreate (traced World fw) a
        (mkf_IOAVServiceCreate (traced World fw) a (w, [])).2).2.2
      = [FwCall.create a, FwCall.create a] := by
  refine ⟨fun hs => congrArg refToVoid hs, fun hs => hs, fun hs => hs,
    rfl, rfl, rfl⟩

/-- Witness for C7 at two concrete frameworks over different world types
whose constructors agree: the shim results agree. -/
theorem C7_witness :
    (mkf_IOAVServiceCreate mockFramework ⟨3⟩ ()).1
      = (mkf_IOAVServiceCreate mockFramework2 ⟨3⟩ 0).1 :=
  (C7_stateless mockFramework mockFramework2 ⟨3⟩ ⟨5⟩ 1 2 ⟨7⟩ 4 () 0).1 rfl

/-- Claim C8: the shim never interprets, copies, frees, allocates or mutates
the handle: it only relays the pointer value.  Both casts preserve the
address, the handle delivered to the framework equals the handle received
from the caller, and the shim's outgoing state is exactly the framework
call's outgoing state — the shim itself changes nothing. -/
theorem C8_handle_passthrough {World : Type} (fw : Framework World)
    (r : IOAVServiceRef) (a : CFAllocatorRef) (s : io_service_t)
    (h : VoidPtr) (c d : Nat) (b : VoidPtr) (l : Nat) (w : World) :
    (refToVoid r).addr = r.addr ∧
    (voidToRef h).addr = h.addr ∧
    mkf_IOAVServiceWriteI2C fw h c d b l w
      = fw.IOAVServiceWriteI2C ⟨h.addr⟩ c d b l w ∧
    mkf_IOAVServiceReadI2C fw h c d b l w
      = fw.IOAVServiceReadI2C ⟨h.addr⟩ c d b l w ∧
    (mkf_IOAVServiceCreate fw a w).2 = (fw.IOAVServiceCreate a w).2 ∧
    (mkf_IOAVServiceCreateWithService fw a s w).2
      = (fw.IOAVServiceCreateWithService a s w).2 ∧
    (mkf_IOAVServiceWriteI2C fw h c d b l w).2
      = (fw.IOAVServiceWriteI2C ⟨h.addr⟩ c d b l w).2 :=
  ⟨rfl, rfl, rfl, rfl, rfl, rfl, rfl⟩

/-- Claim C9: the opaque-handle casts round-trip: `voidToRef` is a left
inverse of `refToVoid`, so a handle produced by either constructor and then
passed to an I2C wrapper reaches the framework as the identical
`IOAVServiceRef` value, as the instrumented call log shows. -/
theorem C9_cast_roundtrip {World : Type} (fw : Framework World)
    (r : IOAVServiceRef) (a : CFAllocatorRef) (s : io_service_t)
    (c d : Nat) (b : VoidPtr) (l : Nat) (w : World) :
    voidToRef (refToVoid r) = r ∧
    voidToRef (mkf_IOAVServiceCreate fw a w).1
      = (fw.IOAVServiceCreate a w).1 ∧
    voidToRef (mkf_IOAVServiceCreateWithService fw a s w).1
      = (fw.IOAVServiceCreateWithService a s w).1 ∧
    (mkf_IOAVServiceReadI2C (traced World fw)
        (mkf_IOAVServiceCreate (traced World fw) a (w, [])).1 c d b l
        (mkf_IOAVServiceCreate (traced World fw) a (w, [])).2).2.2
      = [FwCall.create a,
         FwCall.readI2C (fw.IOAVServiceCreate a w).1 c d b l] :=
  ⟨rfl, rfl, rfl, rfl⟩

/-- Claim C10: each wrapper is total at its public interface: it performs
exactly one framework call for every input — no null check, error branch or
early return — and, despite the header's `_Nonnull` annotations, a null
service or data pointer is forwarded to the framework, not rejected. -/
theorem C10_total_one_call {World : Type} (fw : Framework World)
    (a : CFAllocatorRef) (s : io_service_t) (h : VoidPtr) (c d : Nat)
    (b : VoidPtr) (l : Nat) (w : World) (t : List FwCall) :
    mkf_IOAVServiceWriteI2C fw VoidPtr.null c d VoidPtr.null l w
      = fw.IOAVServiceWriteI2C (voidToRef VoidPtr.null) c d VoidPtr.null l w ∧
    mkf_IOAVServiceReadI2C fw VoidPtr.null c d VoidPtr.null l w
      = fw.IOAVServiceReadI2C (voidToRef VoidPtr.null) c d VoidPtr.null l w ∧
    (mkf_IOAVServiceCreate (traced World fw) a (w, t)).2.2.length
      = t.length + 1 ∧
    (mkf_IOAVServiceCreateWithService (traced World fw) a s (w, t)).2.2.length
      = t.length + 1 ∧
    (mkf_IOAVServiceWriteI2C (traced World fw) h c d b l (w, t)).2.2.length
      = t.length + 1 ∧
    (mkf_IOAVServiceReadI2C (traced World fw) h c d b l (w, t)).2.2.length
      = t.length + 1 := by
  refine ⟨rfl, rfl, ?_, ?_, ?_, ?_⟩ <;>
    simp [mkf_IOAVServiceCreate, mkf_IOAVServiceCreateWithService,
      mkf_IOAVServiceWriteI2C, mkf_IOAVServiceReadI2C, traced]
